import Mathlib

/-!
Verification of the pyONHM pipeline orchestrator against its specification.

The development shallowly embeds the date-window resolver, the data-feed
freshness checker, the presence prober (`src/pyonhm/utils.py`) and the
operational pipeline executor (`src/pyonhm/docker_manager.py`).

Calendar dates are embedded as proleptic Gregorian dates in the range
supported by Python's `datetime` (years 1..9999).  String dates use the
`%Y-%m-%d` parse/format conventions of `datetime.strptime`/`strftime`
(4-digit year, 1-2 digit month and day on parse; zero-padded fields on
format).  Day arithmetic follows `timedelta`: out-of-range results are an
`OverflowError`, modelled as `none`.  The wall clock (`get_yesterday_mst`)
and all network / container-runtime effects are parameters of the
embedding.
-/

/-- A calendar date, as held by a Python `datetime.date`. -/
structure Date where
  year : Nat
  month : Nat
  day : Nat
deriving DecidableEq, Repr

/-- Gregorian leap-year rule, as used by `datetime`. -/
def isLeap (y : Nat) : Bool :=
  (y % 4 == 0 && y % 100 != 0) || y % 400 == 0

/-- Number of days in a month of a given year. -/
def daysInMonth (y m : Nat) : Nat :=
  if m = 2 then (if isLeap y then 29 else 28)
  else if m = 4 ∨ m = 6 ∨ m = 9 ∨ m = 11 then 30 else 31

/-- The dates representable by Python's `datetime.date` (year 1..9999,
real calendar month/day). -/
def Date.Valid (d : Date) : Prop :=
  1 ≤ d.year ∧ d.year ≤ 9999 ∧ 1 ≤ d.month ∧ d.month ≤ 12 ∧
    1 ≤ d.day ∧ d.day ≤ daysInMonth d.year d.month

instance Date.Valid.dec (d : Date) : Decidable d.Valid :=
  decidable_of_iff
    (1 ≤ d.year ∧ d.year ≤ 9999 ∧ 1 ≤ d.month ∧ d.month ≤ 12 ∧
      1 ≤ d.day ∧ d.day ≤ daysInMonth d.year d.month) Iff.rfl

/-- Day number of a date (days since 0000-03-01 of the proleptic
Gregorian calendar), the standard civil-calendar day count. -/
def Date.toDays (d : Date) : Nat :=
  let y := if d.month ≤ 2 then d.year - 1 else d.year
  let era := y / 400
  let yoe := y % 400
  let doy := (153 * (if d.month ≤ 2 then d.month + 9 else d.month - 3) + 2) / 5
    + (d.day - 1)
  let doe := yoe * 365 + yoe / 4 - yoe / 100 + doy
  era * 146097 + doe

/-- Inverse of `Date.toDays` (civil-from-days). -/
def Date.ofDays (z : Nat) : Date :=
  let era := z / 146097
  let doe := z % 146097
  let yoe := (doe - doe / 1460 + doe / 36524 - doe / 146096) / 365
  let y := yoe + era * 400
  let doy := doe - (365 * yoe + yoe / 4 - yoe / 100)
  let mp := (5 * doy + 2) / 153
  let day := doy - (153 * mp + 2) / 5 + 1
  let month := if mp < 10 then mp + 3 else mp - 9
  ⟨if month ≤ 2 then y + 1 else y, month, day⟩

/-- Day number of `datetime.date.min` (0001-01-01). -/
def minDateDays : Nat := Date.toDays ⟨1, 1, 1⟩

/-- Day number of `datetime.date.max` (9999-12-31). -/
def maxDateDays : Nat := Date.toDays ⟨9999, 12, 31⟩

/-- Day arithmetic of `datetime`, `d + timedelta(days=k)`.  Results
outside the representable range raise `OverflowError` (`none`). -/
def Date.addDays (d : Date) (k : Int) : Option Date :=
  let n : Int := (Date.toDays d : Int) + k
  if (minDateDays : Int) ≤ n ∧ n ≤ (maxDateDays : Int) then
    some (Date.ofDays n.toNat)
  else none

/-- The decimal digit character for `n` (0..9). -/
def digitChar (n : Nat) : Char :=
  if n = 0 then '0' else if n = 1 then '1' else if n = 2 then '2'
  else if n = 3 then '3' else if n = 4 then '4' else if n = 5 then '5'
  else if n = 6 then '6' else if n = 7 then '7' else if n = 8 then '8'
  else '9'

/-- The numeric value of a decimal digit character, `none` otherwise. -/
def digitVal (c : Char) : Option Nat :=
  if c = '0' then some 0 else if c = '1' then some 1 else if c = '2' then some 2
  else if c = '3' then some 3 else if c = '4' then some 4 else if c = '5' then some 5
  else if c = '6' then some 6 else if c = '7' then some 7 else if c = '8' then some 8
  else if c = '9' then some 9 else none

/-- Four-digit zero-padded decimal rendering (`%Y`). -/
def pad4 (n : Nat) : List Char :=
  [digitChar (n / 1000), digitChar (n / 100 % 10), digitChar (n / 10 % 10),
    digitChar (n % 10)]

/-- Two-digit zero-padded decimal rendering (`%m`, `%d`). -/
def pad2 (n : Nat) : List Char :=
  [digitChar (n / 10), digitChar (n % 10)]

/-- Character content of `date.strftime("%Y-%m-%d")`. -/
def formatDateChars (d : Date) : List Char :=
  pad4 d.year ++ '-' :: (pad2 d.month ++ '-' :: pad2 d.day)

/-- Embeds `date.strftime("%Y-%m-%d")`. -/
def formatDate (d : Date) : String :=
  String.mk (formatDateChars d)

/-- Embeds `date.strftime("%Y,%m,%d,00,00,00")`: the 6-field timestamp
the simulation stage consumes. -/
def formatTimestamp (d : Date) : String :=
  String.mk (pad4 d.year ++ ',' :: (pad2 d.month ++ ',' :: (pad2 d.day ++
    (",00,00,00".toList))))

/-- Consume a leading hyphen. -/
def expectDash : List Char → Option (List Char)
  | c :: rest => if c = '-' then some rest else none
  | [] => none

/-- Consume one or two decimal digits, greedily (the `\d{1,2}` pattern
`strptime` uses for `%m` and `%d`). -/
def parseDigits2 : List Char → Option (Nat × List Char)
  | [] => none
  | c :: rest =>
    match digitVal c with
    | none => none
    | some a =>
      match rest with
      | c2 :: rest2 =>
        match digitVal c2 with
        | some b => some (10 * a + b, rest2)
        | none => some (a, c2 :: rest2)
      | [] => some (a, [])

/-- Raw field extraction of `strptime(s, "%Y-%m-%d")`: exactly four year
digits, a hyphen, 1-2 month digits, a hyphen, 1-2 day digits, end of
input. -/
def parseYMD (cs : List Char) : Option (Nat × Nat × Nat) :=
  match cs with
  | y1 :: y2 :: y3 :: y4 :: rest0 =>
    match digitVal y1, digitVal y2, digitVal y3, digitVal y4 with
    | some a, some b, some c, some d =>
      match expectDash rest0 with
      | some rest1 =>
        match parseDigits2 rest1 with
        | some (m, rest2) =>
          match expectDash rest2 with
          | some rest3 =>
            match parseDigits2 rest3 with
            | some (dd, rest4) =>
              match rest4 with
              | [] => some (1000 * a + 100 * b + 10 * c + d, m, dd)
              | _ => none
            | none => none
          | none => none
        | none => none
      | none => none
    | _, _, _, _ => none
  | _ => none

/-- Embeds `datetime.strptime(s, "%Y-%m-%d")` on character lists: field
extraction followed by the range validation the `datetime` constructor
performs (`MINYEAR <= year <= MAXYEAR`, real month and day). -/
def parseDateChars (cs : List Char) : Option Date :=
  match parseYMD cs with
  | some (y, m, d) =>
    if 1 ≤ y ∧ y ≤ 9999 ∧ 1 ≤ m ∧ m ≤ 12 ∧ 1 ≤ d ∧ d ≤ daysInMonth y m then
      some ⟨y, m, d⟩
    else none
  | none => none

/-- Embeds `datetime.strptime(s, "%Y-%m-%d")`, failure as `none`. -/
def parseDate (s : String) : Option Date :=
  parseDateChars s.toList

/-- Embeds `adjust_date` from `utils.py`: parse, shift by `days`, keep as a
date value. -/
def adjust_date (s : String) (days : Int) : Option Date :=
  (parseDate s).bind (fun d => d.addDays days)

/-- Embeds `adjust_date_str` from `utils.py`: parse, shift, format. -/
def adjust_date_str (s : String) (days : Int) : Option String :=
  (adjust_date s days).map formatDate


/-! ### Round-trip properties of the `%Y-%m-%d` string representation -/

theorem digitVal_digitChar (n : Nat) (h : n < 10) :
    digitVal (digitChar n) = some n := by
  interval_cases n <;> rfl

theorem digitVal_lt (c : Char) (n : Nat) (h : digitVal c = some n) : n < 10 := by
  unfold digitVal at h
  split_ifs at h <;> simp_all <;> omega

theorem daysInMonth_le (y m : Nat) : daysInMonth y m ≤ 31 := by
  unfold daysInMonth
  split_ifs <;> omega

theorem parseDigits2_pad2 (n : Nat) (h : n < 100) (rest : List Char) :
    parseDigits2 (pad2 n ++ rest) = some (n, rest) := by
  have h1 : n / 10 < 10 := by omega
  have h2 : n % 10 < 10 := by omega
  simp only [pad2, List.cons_append, List.nil_append, parseDigits2,
    digitVal_digitChar _ h1, digitVal_digitChar _ h2]
  have hn : 10 * (n / 10) + n % 10 = n := by omega
  rw [hn]

theorem parseDigits2_pad2_nil (n : Nat) (h : n < 100) :
    parseDigits2 (pad2 n) = some (n, []) := by
  have := parseDigits2_pad2 n h []
  simpa using this

theorem parseYMD_format (y m d : Nat) (hy : y < 10000) (hm : m < 100)
    (hd : d < 100) :
    parseYMD (pad4 y ++ '-' :: (pad2 m ++ '-' :: pad2 d)) = some (y, m, d) := by
  have h1 : y / 1000 < 10 := by omega
  have h2 : y / 100 % 10 < 10 := by omega
  have h3 : y / 10 % 10 < 10 := by omega
  have h4 : y % 10 < 10 := by omega
  simp only [pad4, List.cons_append, List.nil_append, parseYMD,
    digitVal_digitChar _ h1, digitVal_digitChar _ h2, digitVal_digitChar _ h3,
    digitVal_digitChar _ h4, expectDash, if_pos,
    parseDigits2_pad2 m hm, parseDigits2_pad2_nil d hd]
  have hn : 1000 * (y / 1000) + 100 * (y / 100 % 10) + 10 * (y / 10 % 10)
      + y % 10 = y := by omega
  rw [hn]

theorem parseDateChars_format (d : Date) (h : d.Valid) :
    parseDateChars (formatDateChars d) = some d := by
  obtain ⟨h1, h2, h3, h4, h5, h6⟩ := h
  have hle := daysInMonth_le d.year d.month
  have hy : d.year < 10000 := by omega
  have hm : d.month < 100 := by omega
  have hd : d.day < 100 := by omega
  simp only [formatDateChars, parseDateChars, parseYMD_format _ _ _ hy hm hd]
  rw [if_pos ⟨h1, h2, h3, h4, h5, h6⟩]

theorem parseDate_format (d : Date) (h : d.Valid) :
    parseDate (formatDate d) = some d := by
  unfold parseDate formatDate
  simpa [String.toList] using parseDateChars_format d h

theorem parseDateChars_valid (cs : List Char) (d : Date)
    (h : parseDateChars cs = some d) : d.Valid := by
  cases hp : parseYMD cs with
  | none => simp [parseDateChars, hp] at h
  | some t =>
    obtain ⟨y, m, dd⟩ := t
    simp only [parseDateChars, hp] at h
    split_ifs at h with hc
    cases h
    exact hc

theorem parseDate_valid (s : String) (d : Date) (h : parseDate s = some d) :
    d.Valid := parseDateChars_valid _ _ h

theorem formatDate_inj (d e : Date) (hd : d.Valid) (he : e.Valid)
    (h : formatDate d = formatDate e) : d = e := by
  have h1 := parseDate_format d hd
  rw [h, parseDate_format e he] at h1
  exact (Option.some_inj.mp h1).symm

theorem formatDate_ne_empty (d : Date) : formatDate d ≠ "" := by
  intro h
  have h2 := congrArg String.data h
  simp [formatDate, formatDateChars, pad4] at h2

/-! ### Environment-variable dictionaries

The orchestrator passes configuration through a mutable `env_vars` dict of
string keys and string values; the embedding threads an association list,
newest binding first.  A Python function that can raise (bad date string,
`OverflowError`, `KeyError`) returns `none`. -/

/-- The `env_vars` dictionary. -/
def EnvMap := List (String × String)

/-- Dictionary update `env_vars[k] = v`. -/
def envSet (m : EnvMap) (k v : String) : EnvMap := (k, v) :: m

/-- Dictionary lookup `env_vars[k]`, `none` for a missing key
(`KeyError`). -/
def envGet (m : EnvMap) (k : String) : Option String :=
  (List.find? (fun p => p.1 == k) m).map Prod.snd

theorem envGet_set_self (m : EnvMap) (k v : String) :
    envGet (envSet m k v) k = some v := by
  simp [envGet, envSet, List.find?]

theorem envGet_set_ne (m : EnvMap) (k k' v : String) (h : (k == k') = false) :
    envGet (envSet m k v) k' = envGet m k' := by
  simp [envGet, envSet, List.find?, h]

/-- Embeds `env_update_dates` (`utils.py`): the Operational window.  `end_date`
arrives from the freshness gate; `restart_date` is the discovered
checkpoint. -/
def env_update_dates (restart_date end_date : String) (env : EnvMap) :
    Option EnvMap :=
  let env1 := envSet env "END_DATE" end_date
  let env2 := envSet env1 "RESTART_DATE" restart_date
  match adjust_date restart_date 1 with
  | none => none
  | some sd =>
    let env3 := envSet env2 "START_DATE" (formatDate sd)
    match adjust_date end_date (-59) with
    | none => none
    | some sr =>
      let env4 := envSet env3 "SAVE_RESTART_DATE" (formatDate sr)
      match adjust_date end_date 29 with
      | none => none
      | some fe =>
        let env5 := envSet env4 "FRCST_END_DATE" (formatDate fe)
        match envGet env5 "FRCST_END_DATE" with
        | none => none
        | some fs =>
          match parseDate fs with
          | none => none
          | some fed =>
            let env6 := envSet env5 "F_END_TIME" (formatTimestamp fed)
            match adjust_date end_date (-59) with
            | none => none
            | some sr2 =>
              let env7 := envSet env6 "SAVE_RESTART_TIME" (formatTimestamp sr2)
              some (envSet env7 "NEW_RESTART_DATE" restart_date)

/-- Embeds `env_update_dates_for_restart_update` (`utils.py`): the
RestartAdvance window.  `yesterdayMst` is the value the wall-clock read
`get_yesterday_mst()` returned, a parameter of the embedding. -/
def env_update_dates_for_restart_update (restart_date : String)
    (yesterdayMst : Date) (env : EnvMap) : Option EnvMap :=
  let env1 := envSet env "RESTART_DATE" restart_date
  let yesterday := formatDate yesterdayMst
  match adjust_date_str restart_date 1 with
  | none => none
  | some start_date =>
    let env2 := envSet env1 "START_DATE" start_date
    match adjust_date yesterday (-59) with
    | none => none
    | some sr =>
      let env3 := envSet env2 "SAVE_RESTART_DATE" (formatDate sr)
      match envGet env3 "SAVE_RESTART_DATE" with
      | none => none
      | some srd =>
        let env4 := envSet env3 "END_DATE" srd
        match envGet env4 "END_DATE" with
        | none => none
        | some eds =>
          match parseDate eds with
          | none => none
          | some edd =>
            let env5 := envSet env4 "SAVE_RESTART_TIME" (formatTimestamp edd)
            some (envSet env5 "NEW_RESTART_DATE" restart_date)

/-- Embeds `env_update_dates_for_testing` (`utils.py`): the OperationalTest
window.  `FRCST_END_DATE` is derived from yesterday only when unset or
set to a falsy (empty) string. -/
def env_update_dates_for_testing (restart_date : String) (yesterdayMst : Date)
    (env : EnvMap) (num_days : Int) : Option EnvMap :=
  let yesterday := formatDate yesterdayMst
  match adjust_date_str restart_date 1 with
  | none => none
  | some start_date =>
    let env1 := envSet env "START_DATE" start_date
    match adjust_date_str start_date num_days with
    | none => none
    | some end_date =>
      let env2 := envSet env1 "END_DATE" end_date
      let env3 := envSet env2 "SAVE_RESTART_DATE" end_date
      let needFrcst : Bool :=
        match envGet env3 "FRCST_END_DATE" with
        | none => true
        | some s => s == ""
      let step4 : Option EnvMap :=
        if needFrcst then
          (adjust_date yesterday 29).map
            (fun f => envSet env3 "FRCST_END_DATE" (formatDate f))
        else some env3
      match step4 with
      | none => none
      | some env4 =>
        match envGet env4 "FRCST_END_DATE" with
        | none => none
        | some fs =>
          match parseDate fs with
          | none => none
          | some fed =>
            let env5 := envSet env4 "F_END_TIME" (formatTimestamp fed)
            match envGet env5 "END_DATE" with
            | none => none
            | some eds =>
              match parseDate eds with
              | none => none
              | some edd =>
                let env6 := envSet env5 "SAVE_RESTART_TIME"
                  (formatTimestamp edd)
                some (envSet env6 "NEW_RESTART_DATE" restart_date)

/-- Embeds `env_update_forecast_dates` (`utils.py`): the SubSeasonalForecast
window (28-day horizon). -/
def env_update_forecast_dates (restart_date : String) (env : EnvMap) :
    Option EnvMap :=
  let env1 := envSet env "FRCST_RESTART_DATE" restart_date
  match adjust_date restart_date 1 with
  | none => none
  | some sd =>
    let start_date := formatDate sd
    let env2 := envSet env1 "FRCST_START_DATE" start_date
    match adjust_date start_date 27 with
    | none => none
    | some ed =>
      let env3 := envSet env2 "FRCST_END_DATE" (formatDate ed)
      match envGet env3 "FRCST_END_DATE" with
      | none => none
      | some fes =>
        match parseDate fes with
        | none => none
        | some fed =>
          let env4 := envSet env3 "FRCST_END_TIME" (formatTimestamp fed)
          match envGet env4 "FRCST_START_DATE" with
          | none => none
          | some fss =>
            match parseDate fss with
            | none => none
            | some fsd =>
              some (envSet env4 "FRCST_START_TIME" (formatTimestamp fsd))

/-! ### Claim C1: the Operational window -/

/-- C1: for every checkpoint date `d` and agreed feed end date `e` with
`e > d`, the Operational window resolution `env_update_dates` sets
`START_DATE = d + 1 day`, `SAVE_RESTART_DATE = e - 59 days`,
`FRCST_END_DATE = e + 29 days`, and leaves `END_DATE = e`. -/
theorem c1_operational_window (rd ed : String) (env : EnvMap)
    (d e sd sr fe : Date)
    (hd : parseDate rd = some d) (he : parseDate ed = some e)
    (hlt : Date.toDays d < Date.toDays e)
    (h1 : d.addDays 1 = some sd)
    (h2 : e.addDays (-59) = some sr)
    (h3 : e.addDays 29 = some fe)
    (hfv : fe.Valid) :
    ∃ env', env_update_dates rd ed env = some env' ∧
      envGet env' "START_DATE" = some (formatDate sd) ∧
      envGet env' "SAVE_RESTART_DATE" = some (formatDate sr) ∧
      envGet env' "FRCST_END_DATE" = some (formatDate fe) ∧
      envGet env' "END_DATE" = some ed := by
  have ha1 : adjust_date rd 1 = some sd := by simp [adjust_date, hd, h1]
  have ha2 : adjust_date ed (-59) = some sr := by simp [adjust_date, he, h2]
  have ha3 : adjust_date ed 29 = some fe := by simp [adjust_date, he, h3]
  refine ⟨envSet (envSet (envSet (envSet (envSet (envSet (envSet (envSet env
      "END_DATE" ed) "RESTART_DATE" rd) "START_DATE" (formatDate sd))
      "SAVE_RESTART_DATE" (formatDate sr)) "FRCST_END_DATE" (formatDate fe))
      "F_END_TIME" (formatTimestamp fe)) "SAVE_RESTART_TIME"
      (formatTimestamp sr)) "NEW_RESTART_DATE" rd, ?_, ?_, ?_, ?_, ?_⟩
  · simp [env_update_dates, ha1, ha2, ha3, envGet_set_self,
      parseDate_format fe hfv]
  all_goals simp [envGet, envSet, List.find?]

/-- C1 witness: checkpoint 2024-01-10 and agreed feed date 2024-03-01. -/
theorem c1_operational_window_witness :
    ∃ env', env_update_dates "2024-01-10" "2024-03-01" [] = some env' ∧
      envGet env' "START_DATE" = some (formatDate ⟨2024, 1, 11⟩) ∧
      envGet env' "SAVE_RESTART_DATE" = some (formatDate ⟨2024, 1, 2⟩) ∧
      envGet env' "FRCST_END_DATE" = some (formatDate ⟨2024, 3, 30⟩) ∧
      envGet env' "END_DATE" = some "2024-03-01" :=
  c1_operational_window "2024-01-10" "2024-03-01" []
    ⟨2024, 1, 10⟩ ⟨2024, 3, 1⟩ ⟨2024, 1, 11⟩ ⟨2024, 1, 2⟩ ⟨2024, 3, 30⟩
    (by decide) (by decide) (by decide) (by decide) (by decide) (by decide)
    (by decide)

/-! ### Claim C2: the RestartAdvance window -/

/-- C2: every RestartAdvance resolution sets `SAVE_RESTART_DATE` to
yesterday-in-the-reference-timezone minus 59 days and `END_DATE` equal to
it, independently of the supplied checkpoint (the resulting values mention
only `y`), while `START_DATE` is the checkpoint plus 1 day. -/
theorem c2_restart_advance_window (rd : String) (y : Date) (env : EnvMap)
    (d0 sd y59 : Date)
    (hd : parseDate rd = some d0)
    (h1 : d0.addDays 1 = some sd)
    (hy : y.Valid)
    (h2 : y.addDays (-59) = some y59)
    (hv59 : y59.Valid) :
    ∃ env', env_update_dates_for_restart_update rd y env = some env' ∧
      envGet env' "SAVE_RESTART_DATE" = some (formatDate y59) ∧
      envGet env' "END_DATE" = some (formatDate y59) ∧
      envGet env' "START_DATE" = some (formatDate sd) := by
  have ha1 : adjust_date_str rd 1 = some (formatDate sd) := by
    simp [adjust_date_str, adjust_date, hd, h1]
  have ha2 : adjust_date (formatDate y) (-59) = some y59 := by
    simp [adjust_date, parseDate_format y hy, h2]
  refine ⟨envSet (envSet (envSet (envSet (envSet (envSet env
      "RESTART_DATE" rd) "START_DATE" (formatDate sd))
      "SAVE_RESTART_DATE" (formatDate y59)) "END_DATE" (formatDate y59))
      "SAVE_RESTART_TIME" (formatTimestamp y59)) "NEW_RESTART_DATE" rd,
      ?_, ?_, ?_, ?_⟩
  · simp [env_update_dates_for_restart_update, ha1, ha2, envGet_set_self,
      parseDate_format y59 hv59]
  all_goals simp [envGet, envSet, List.find?]

/-- C2 witness: checkpoint 2024-01-10, yesterday 2024-03-01 (so the
saved checkpoint advances to 2024-01-02). -/
theorem c2_restart_advance_window_witness :
    ∃ env', env_update_dates_for_restart_update "2024-01-10" ⟨2024, 3, 1⟩ []
        = some env' ∧
      envGet env' "SAVE_RESTART_DATE" = some (formatDate ⟨2024, 1, 2⟩) ∧
      envGet env' "END_DATE" = some (formatDate ⟨2024, 1, 2⟩) ∧
      envGet env' "START_DATE" = some (formatDate ⟨2024, 1, 11⟩) :=
  c2_restart_advance_window "2024-01-10" ⟨2024, 3, 1⟩ []
    ⟨2024, 1, 10⟩ ⟨2024, 1, 11⟩ ⟨2024, 1, 2⟩
    (by decide) (by decide) (by decide) (by decide) (by decide)

/-! ### Claim C4: the SubSeasonalForecast window -/

/-- C4: for every forecast-track checkpoint `c`, `env_update_forecast_dates`
sets `FRCST_START_DATE = c + 1 day`, `FRCST_END_DATE = FRCST_START_DATE +
27 days` (28-day horizon), and the matching `FRCST_START_TIME` and
`FRCST_END_TIME` as the 6-field `YYYY,MM,DD,00,00,00` timestamps of those
dates. -/
theorem c4_forecast_window (rd : String) (env : EnvMap) (c sd ed : Date)
    (hc : parseDate rd = some c)
    (h1 : c.addDays 1 = some sd)
    (hsv : sd.Valid)
    (h2 : sd.addDays 27 = some ed)
    (hev : ed.Valid) :
    ∃ env', env_update_forecast_dates rd env = some env' ∧
      envGet env' "FRCST_START_DATE" = some (formatDate sd) ∧
      envGet env' "FRCST_END_DATE" = some (formatDate ed) ∧
      envGet env' "FRCST_START_TIME" = some (formatTimestamp sd) ∧
      envGet env' "FRCST_END_TIME" = some (formatTimestamp ed) := by
  have ha1 : adjust_date rd 1 = some sd := by simp [adjust_date, hc, h1]
  have ha2 : adjust_date (formatDate sd) 27 = some ed := by
    simp [adjust_date, parseDate_format sd hsv, h2]
  refine ⟨envSet (envSet (envSet (envSet (envSet env
      "FRCST_RESTART_DATE" rd) "FRCST_START_DATE" (formatDate sd))
      "FRCST_END_DATE" (formatDate ed)) "FRCST_END_TIME" (formatTimestamp ed))
      "FRCST_START_TIME" (formatTimestamp sd), ?_, ?_, ?_, ?_, ?_⟩
  · simp only [env_update_forecast_dates, ha1, ha2, envGet_set_self,
      parseDate_format ed hev]
    rw [envGet_set_ne _ _ _ _ (by decide), envGet_set_ne _ _ _ _ (by decide),
      envGet_set_self]
    simp [parseDate_format sd hsv]
  all_goals simp [envGet, envSet, List.find?]

/-- C4 witness: forecast checkpoint 2024-02-10, so the window is
2024-02-11 .. 2024-03-09. -/
theorem c4_forecast_window_witness :
    ∃ env', env_update_forecast_dates "2024-02-10" [] = some env' ∧
      envGet env' "FRCST_START_DATE" = some (formatDate ⟨2024, 2, 11⟩) ∧
      envGet env' "FRCST_END_DATE" = some (formatDate ⟨2024, 3, 9⟩) ∧
      envGet env' "FRCST_START_TIME" = some (formatTimestamp ⟨2024, 2, 11⟩) ∧
      envGet env' "FRCST_END_TIME" = some (formatTimestamp ⟨2024, 3, 9⟩) :=
  c4_forecast_window "2024-02-10" [] ⟨2024, 2, 10⟩ ⟨2024, 2, 11⟩ ⟨2024, 3, 9⟩
    (by decide) (by decide) (by decide) (by decide) (by decide)

/-! ### Claim C7: the OperationalTest window -/

/-- C7: OperationalTest window resolution sets `START_DATE` to the
checkpoint plus 1 day, `END_DATE = START_DATE + num_days`, and
`SAVE_RESTART_DATE = END_DATE`; with checkpoint 2024-01-10 and
`num_days = 4` this is 2024-01-11 / 2024-01-15 / 2024-01-15 (see the
witness).  Stated for an environment with no previous `FRCST_END_DATE`. -/
theorem c7_operational_test_window (rd : String) (y : Date) (env : EnvMap)
    (num_days : Int) (d0 sd ed y29 : Date)
    (hd : parseDate rd = some d0)
    (h1 : d0.addDays 1 = some sd)
    (hsv : sd.Valid)
    (h2 : sd.addDays num_days = some ed)
    (hev : ed.Valid)
    (hy : y.Valid)
    (h3 : y.addDays 29 = some y29)
    (h29v : y29.Valid)
    (hfe : envGet env "FRCST_END_DATE" = none) :
    ∃ env', env_update_dates_for_testing rd y env num_days = some env' ∧
      envGet env' "START_DATE" = some (formatDate sd) ∧
      envGet env' "END_DATE" = some (formatDate ed) ∧
      envGet env' "SAVE_RESTART_DATE" = some (formatDate ed) := by
  have ha1 : adjust_date_str rd 1 = some (formatDate sd) := by
    simp [adjust_date_str, adjust_date, hd, h1]
  have ha2 : adjust_date_str (formatDate sd) num_days = some (formatDate ed) := by
    simp [adjust_date_str, adjust_date, parseDate_format sd hsv, h2]
  have ha3 : adjust_date (formatDate y) 29 = some y29 := by
    simp [adjust_date, parseDate_format y hy, h3]
  have hfe3 : envGet (envSet (envSet (envSet env "START_DATE" (formatDate sd))
      "END_DATE" (formatDate ed)) "SAVE_RESTART_DATE" (formatDate ed))
      "FRCST_END_DATE" = none := by
    rw [envGet_set_ne _ _ _ _ (by decide), envGet_set_ne _ _ _ _ (by decide),
      envGet_set_ne _ _ _ _ (by decide), hfe]
  refine ⟨envSet (envSet (envSet (envSet (envSet (envSet (envSet env
      "START_DATE" (formatDate sd)) "END_DATE" (formatDate ed))
      "SAVE_RESTART_DATE" (formatDate ed)) "FRCST_END_DATE" (formatDate y29))
      "F_END_TIME" (formatTimestamp y29)) "SAVE_RESTART_TIME"
      (formatTimestamp ed)) "NEW_RESTART_DATE" rd, ?_, ?_, ?_, ?_⟩
  · simp only [env_update_dates_for_testing, ha1, ha2, ha3, hfe3,
      envGet_set_self, parseDate_format y29 h29v, Option.map_some',
      if_true]
    rw [envGet_set_ne _ _ _ _ (by decide), envGet_set_ne _ _ _ _ (by decide),
      envGet_set_ne _ _ _ _ (by decide), envGet_set_self]
    simp [parseDate_format ed hev]
  all_goals simp [envGet, envSet, List.find?]

/-- C7 witness: the specification scenario, checkpoint 2024-01-10,
`num_days = 4` (yesterday taken as 2024-06-01). -/
theorem c7_operational_test_window_witness :
    ∃ env', env_update_dates_for_testing "2024-01-10" ⟨2024, 6, 1⟩ [] 4
        = some env' ∧
      envGet env' "START_DATE" = some "2024-01-11" ∧
      envGet env' "END_DATE" = some "2024-01-15" ∧
      envGet env' "SAVE_RESTART_DATE" = some "2024-01-15" :=
  c7_operational_test_window "2024-01-10" ⟨2024, 6, 1⟩ [] 4
    ⟨2024, 1, 10⟩ ⟨2024, 1, 11⟩ ⟨2024, 1, 15⟩ ⟨2024, 6, 30⟩
    (by decide) (by decide) (by decide) (by decide) (by decide) (by decide)
    (by decide) (by decide) rfl

/-! ### Claim C8: the presence prober `is_next_day_present` -/

/-- Embeds `is_next_day_present` (`utils.py`): parse the reference date, add one
day, and report whether that day's `YYYY-MM-DD` name occurs in the folder
list (returning the name exactly when present). -/
def is_next_day_present (date_folders : List String) (user_date : String) :
    Option (Bool × Option String) :=
  match parseDate user_date with
  | none => none
  | some d =>
    match d.addDays 1 with
    | none => none
    | some nd =>
      let next_day_str := formatDate nd
      let is_present := date_folders.contains next_day_str
      some (is_present, if is_present then some next_day_str else none)

/-- C8: for every folder list and well-formed reference date,
`is_next_day_present` returns `(true, reference + 1 day)` exactly when
that next day occurs in the list, and `(false, none)` otherwise. -/
theorem c8_next_day_present (folders : List String) (u : String) (d nd : Date)
    (hp : parseDate u = some d) (ha : d.addDays 1 = some nd) :
    (formatDate nd ∈ folders →
      is_next_day_present folders u = some (true, some (formatDate nd))) ∧
    (formatDate nd ∉ folders →
      is_next_day_present folders u = some (false, none)) := by
  constructor <;> intro hmem <;>
    simp [is_next_day_present, hp, ha, List.contains, hmem]

/-- C8 witness: the two specification examples. -/
theorem c8_next_day_present_witness :
    is_next_day_present ["2024-03-01", "2024-03-02"] "2024-03-01"
        = some (true, some "2024-03-02") ∧
    is_next_day_present ["2024-03-05"] "2024-03-01" = some (false, none) := by
  have e2 : formatDate ⟨2024, 3, 2⟩ = "2024-03-02" := rfl
  constructor
  · have h := (c8_next_day_present ["2024-03-01", "2024-03-02"] "2024-03-01"
      ⟨2024, 3, 1⟩ ⟨2024, 3, 2⟩ (by decide) (by decide)).1
    rw [e2] at h
    exact h (by decide)
  · have h := (c8_next_day_present ["2024-03-05"] "2024-03-01"
      ⟨2024, 3, 1⟩ ⟨2024, 3, 2⟩ (by decide) (by decide)).2
    rw [e2] at h
    exact h (by decide)

/-! ### The data-feed freshness checker

`gridmet_updated` (`utils.py`) loops over the fixed 6-entry feed list.
Per feed it calls `_getxml`, which catches any HTTP or XML-parse failure
internally and returns `None`; a `None` is recorded as status `False` and
date `""`.  For a fetched document, however, the key lookup
`xml_data["gridDataset"]["TimeSpan"]["end"]` and the
`strptime(datadef[:10], "%Y-%m-%d")` call sit outside any handler, so a
missing field or malformed date raises out of `gridmet_updated`.  A feed
response is therefore: `none` for a caught `_getxml` failure, `some none`
for a fetched document without the end-date field, `some (some s)` for a
fetched document with raw end-date string `s`. -/
abbrev FeedResponse := Option (Option String)

/-- Embeds `gridmet_updated`, with the network responses and the
reference-timezone yesterday as parameters; an uncaught per-feed
exception is `none`. -/
def gridmet_updated (responses : List FeedResponse) (yesterday : Date) :
    Option (List Bool × List String) :=
  match responses with
  | [] => some ([], [])
  | none :: rest =>
    (gridmet_updated rest yesterday).map (fun p => (false :: p.1, "" :: p.2))
  | some none :: _ => none
  | some (some datadef) :: rest =>
    match parseDateChars (datadef.toList.take 10) with
    | none => none
    | some gm =>
      (gridmet_updated rest yesterday).map
        (fun p => (decide (gm = yesterday) :: p.1, formatDate gm :: p.2))

/-- The value `check_consistency` returns: Python returns a 3-tuple on an
empty date list and a 2-tuple otherwise. -/
inductive ConsistencyResult
  | triple (status : Bool) (date : String) (extra : Bool)
  | pair (status : Bool) (date : String)
deriving DecidableEq, Repr

/-- Embeds `check_consistency` (`utils.py`): `len(set(...)) == 1` on both lists
(`Finset.card` of the list's elements); on consistency returns
`(status_list[0], date_list[0])`, otherwise `(False, "")`, and on an
empty date list `(False, "", False)`. -/
def check_consistency (status_list : List Bool) (date_list : List String) :
    ConsistencyResult :=
  if date_list.isEmpty then .triple false "" false
  else if status_list.toFinset.card = 1 ∧ date_list.toFinset.card = 1 then
    .pair status_list.head! date_list.head!
  else .pair false ""

/-- The per-feed extracted date, if the feed succeeded. -/
def feedStatus (y : Date) : Option Date → Bool
  | none => false
  | some gm => decide (gm = y)

/-- The per-feed reported date string (`""` for a failed feed). -/
def feedDate : Option Date → String
  | none => ""
  | some gm => formatDate gm

/-- Structure of a successful `gridmet_updated` run: some list of
per-feed outcomes (a parsed, valid date or a recorded failure) whose
status and date projections are the returned lists. -/
theorem gridmet_updated_spec (rs : List FeedResponse) (y : Date)
    (sl : List Bool) (dl : List String)
    (h : gridmet_updated rs y = some (sl, dl)) :
    ∃ feeds : List (Option Date), feeds.length = rs.length ∧
      (∀ o ∈ feeds, ∀ gm, o = some gm → gm.Valid) ∧
      sl = feeds.map (feedStatus y) ∧ dl = feeds.map feedDate := by
  induction rs generalizing sl dl with
  | nil =>
    simp only [gridmet_updated, Option.some_inj] at h
    injection h with h1 h2
    subst h1
    subst h2
    exact ⟨[], by simp, by simp, by simp, by simp⟩
  | cons r rest ih =>
    match r with
    | none =>
      simp only [gridmet_updated] at h
      cases hrec : gridmet_updated rest y with
      | none => rw [hrec] at h; simp at h
      | some p =>
        obtain ⟨sl', dl'⟩ := p
        rw [hrec] at h
        simp only [Option.map_some', Option.some_inj] at h
        injection h with hsl hdl
        subst hsl
        subst hdl
        obtain ⟨feeds, hlen, hval, hs, hd⟩ := ih sl' dl' hrec
        refine ⟨none :: feeds, by simp [hlen], ?_, ?_, ?_⟩
        · intro o ho gm hgm
          rcases List.mem_cons.mp ho with h' | h'
          · subst h'; cases hgm
          · exact hval o h' gm hgm
        · simp [hs, feedStatus]
        · simp [hd, feedDate]
    | some none => simp [gridmet_updated] at h
    | some (some datadef) =>
      simp only [gridmet_updated] at h
      cases hp : parseDateChars (datadef.toList.take 10) with
      | none => rw [hp] at h; simp at h
      | some gm =>
        rw [hp] at h
        cases hrec : gridmet_updated rest y with
        | none => rw [hrec] at h; simp at h
        | some p =>
          obtain ⟨sl', dl'⟩ := p
          rw [hrec] at h
          simp only [Option.map_some', Option.some_inj] at h
          injection h with hsl hdl
          subst hsl
          subst hdl
          obtain ⟨feeds, hlen, hval, hs, hd⟩ := ih sl' dl' hrec
          refine ⟨some gm :: feeds, by simp [hlen], ?_, ?_, ?_⟩
          · intro o ho g hgm
            rcases List.mem_cons.mp ho with h' | h'
            · subst h'; cases hgm
              exact parseDateChars_valid _ _ hp
            · exact hval o h' g hgm
          · simp [hs, feedStatus]
          · simp [hd, feedDate]

theorem toFinset_replicate_six {α : Type} [DecidableEq α] (x : α) :
    (List.replicate 6 x).toFinset = {x} := by
  ext a
  simp [List.mem_replicate]

/-! ### Claim C3: the freshness consistency gate -/

/-- C3: over any 6-feed run of the freshness check, `check_consistency`
returns the proceeding status `(True, yesterday)` exactly when all six
feeds report yesterday's date; whenever the reported dates are not all
identical or differ from yesterday, the returned status is not `True`
(so `operational_run` does not proceed). -/
theorem c3_freshness_gate (rs : List FeedResponse) (y : Date)
    (sl : List Bool) (dl : List String)
    (hy : y.Valid) (hlen : rs.length = 6)
    (hg : gridmet_updated rs y = some (sl, dl)) :
    (dl = List.replicate 6 (formatDate y) →
      check_consistency sl dl = .pair true (formatDate y)) ∧
    (dl ≠ List.replicate 6 (formatDate y) →
      ∀ s, check_consistency sl dl ≠ .pair true s) := by
  obtain ⟨feeds, hflen, hval, hs, hd⟩ := gridmet_updated_spec rs y sl dl hg
  have hdlen : dl.length = 6 := by rw [hd]; simp [hflen, hlen]
  have hslen : sl.length = 6 := by rw [hs]; simp [hflen, hlen]
  have hdne : dl ≠ [] := by
    intro h0
    rw [h0] at hdlen
    simp at hdlen
  constructor
  · intro hrep
    have hfeed : ∀ o ∈ feeds, o = some y := by
      intro o ho
      have hmem : feedDate o ∈ dl := by
        rw [hd]
        exact List.mem_map_of_mem _ ho
      rw [hrep] at hmem
      have hfd : feedDate o = formatDate y := List.eq_of_mem_replicate hmem
      cases o with
      | none => exact absurd hfd.symm (formatDate_ne_empty y)
      | some gm =>
        have hv : gm.Valid := hval _ ho gm rfl
        rw [formatDate_inj gm y hv hy hfd]
    have hsl2 : sl = List.replicate 6 true := by
      rw [hs, List.eq_replicate_iff]
      refine ⟨by simp [hflen, hlen], ?_⟩
      intro b hb
      obtain ⟨o, ho, rfl⟩ := List.mem_map.mp hb
      rw [hfeed o ho]
      simp [feedStatus]
    rw [hsl2, hrep]
    unfold check_consistency
    rw [if_neg (by simp), if_pos]
    · rfl
    · constructor <;> rw [toFinset_replicate_six] <;> simp
  · intro hne s
    by_cases hcard : dl.toFinset.card = 1
    · obtain ⟨x, hx⟩ := Finset.card_eq_one.mp hcard
      have hallx : ∀ z ∈ dl, z = x := by
        intro z hz
        have hzf : z ∈ dl.toFinset := List.mem_toFinset.mpr hz
        rw [hx] at hzf
        simpa using hzf
      have hxy : x ≠ formatDate y := by
        intro hxeq
        apply hne
        rw [List.eq_replicate_iff]
        exact ⟨hdlen, fun b hb => (hallx b hb).trans hxeq⟩
      have hallf : ∀ b ∈ sl, b = false := by
        intro b hb
        rw [hs] at hb
        obtain ⟨o, ho, rfl⟩ := List.mem_map.mp hb
        cases o with
        | none => rfl
        | some gm =>
          have hv : gm.Valid := hval _ ho gm rfl
          have hdm : formatDate gm ∈ dl := by
            rw [hd]
            exact List.mem_map_of_mem _ ho
          have hgx : formatDate gm = x := hallx _ hdm
          have hgmy : gm ≠ y := by
            intro hgm
            apply hxy
            rw [← hgx, hgm]
          simp [feedStatus, hgmy]
      have hsl2 : sl = List.replicate 6 false :=
        List.eq_replicate_iff.mpr ⟨hslen, hallf⟩
      rw [hsl2]
      unfold check_consistency
      rw [if_neg (by simp [hdne]), if_pos
        ⟨by rw [toFinset_replicate_six]; simp, hcard⟩]
      simp
    · unfold check_consistency
      rw [if_neg (by simp [hdne]), if_neg (by tauto)]
      simp

/-- C3 witness: all six feeds report 2024-06-07, yesterday is
2024-06-07. -/
theorem c3_freshness_gate_witness :
    check_consistency (List.replicate 6 true)
        (List.replicate 6 (formatDate ⟨2024, 6, 7⟩))
      = ConsistencyResult.pair true (formatDate ⟨2024, 6, 7⟩) :=
  (c3_freshness_gate (List.replicate 6 (some (some "2024-06-07")))
    ⟨2024, 6, 7⟩ (List.replicate 6 true)
    (List.replicate 6 (formatDate ⟨2024, 6, 7⟩))
    (by decide) (by decide) (by decide)).1 rfl

/-! ### Claim C9: per-feed error handling of the freshness check -/

/-- A feed response after which `gridmet_updated` does not raise: either
`_getxml` failed (caught) or the fetched document carries a date field
whose first ten characters parse as `%Y-%m-%d`. -/
def feedWellFormed : FeedResponse → Bool
  | none => true
  | some none => false
  | some (some s) => (parseDateChars (s.toList.take 10)).isSome

/-- C9 counterexample: a feed whose metadata document was fetched and
XML-parsed but whose date field is malformed makes `gridmet_updated`
raise (`none`) instead of recording a per-feed failed entry, so the
check does not return one status and one date per feed. -/
theorem c9_per_feed_error_counterexample :
    gridmet_updated
      [some (some "not-a-date"), none, none, none, none, none]
      ⟨2024, 6, 7⟩ = none := by decide

/-- C9 (amended): fetch and XML-parse failures (`_getxml` returning
`None`) are caught per feed and recorded as status `False` with date
`""`; when every fetched document carries a parsable date field the
check returns exactly one status and one date entry per feed. -/
theorem c9_per_feed_error_handling (rs : List FeedResponse) (y : Date)
    (h : rs.all feedWellFormed = true) :
    ∃ sl dl, gridmet_updated rs y = some (sl, dl) ∧
      sl.length = rs.length ∧ dl.length = rs.length ∧
      ∀ p ∈ rs.zip (sl.zip dl), p.1 = none → p.2 = (false, "") := by
  induction rs with
  | nil => exact ⟨[], [], rfl, rfl, rfl, by simp⟩
  | cons r rest ih =>
    rw [List.all_cons, Bool.and_eq_true] at h
    obtain ⟨hr, hrest⟩ := h
    obtain ⟨sl, dl, hg, hls, hld, hz⟩ := ih hrest
    match r with
    | none =>
      refine ⟨false :: sl, "" :: dl, ?_, by simp [hls], by simp [hld], ?_⟩
      · simp [gridmet_updated, hg]
      · intro p hp hnone
        rcases List.mem_cons.mp hp with h' | h'
        · rw [h']
        · exact hz p h' hnone
    | some none => simp [feedWellFormed] at hr
    | some (some s) =>
      have hps : (parseDateChars (s.toList.take 10)).isSome := hr
      obtain ⟨gm, hgm⟩ := Option.isSome_iff_exists.mp hps
      refine ⟨decide (gm = y) :: sl, formatDate gm :: dl, ?_,
        by simp [hls], by simp [hld], ?_⟩
      · simp only [String.toList] at hgm
        simp [gridmet_updated, hgm, hg]
      · intro p hp hnone
        rcases List.mem_cons.mp hp with h' | h'
        · rw [h'] at hnone
          cases hnone
        · exact hz p h' hnone

/-- C9 witness for the amended claim: one caught fetch failure among six
feeds. -/
theorem c9_per_feed_error_handling_witness :
    ([none, some (some "2024-06-06T00:00:00Z"), none, none, none, none]
        : List FeedResponse).all feedWellFormed = true ∧
    ∃ sl dl, gridmet_updated
        [none, some (some "2024-06-06T00:00:00Z"), none, none, none, none]
        ⟨2024, 6, 7⟩ = some (sl, dl) ∧
      sl.length = 6 ∧ dl.length = 6 ∧
      ∀ p ∈ ([none, some (some "2024-06-06T00:00:00Z"), none, none, none,
          none] : List FeedResponse).zip (sl.zip dl),
        p.1 = none → p.2 = (false, "") :=
  ⟨by decide, c9_per_feed_error_handling
    [none, some (some "2024-06-06T00:00:00Z"), none, none, none, none]
    ⟨2024, 6, 7⟩ (by decide)⟩

/-! ### Claim C10: the arity quirk of `check_consistency` -/

/-- C10: with an empty date list `check_consistency` returns the 3-tuple
`(False, "", False)`; with any non-empty date list it returns a 2-tuple. -/
theorem c10_check_consistency_arity :
    (∀ sl, check_consistency sl [] = .triple false "" false) ∧
    (∀ sl dl, dl ≠ [] →
      ∃ a b, check_consistency sl dl = ConsistencyResult.pair a b) := by
  constructor
  · intro sl
    rfl
  · intro sl dl h
    unfold check_consistency
    rw [if_neg (by simp [h])]
    split_ifs <;> exact ⟨_, _, rfl⟩

/-- C10 witness: the empty and a singleton input. -/
theorem c10_check_consistency_arity_witness :
    check_consistency [] [] = .triple false "" false ∧
    ∃ a b, check_consistency [true] ["2024-01-01"]
      = ConsistencyResult.pair a b :=
  ⟨c10_check_consistency_arity.1 [],
    c10_check_consistency_arity.2 [true] ["2024-01-01"] (by decide)⟩

/-! ### The operational pipeline executor (`docker_manager.py`)

`op_containers` invokes five containers through
`run_container_with_check`; `run_container` returns `False` on a
non-zero exit code or any run error, upon which
`run_container_with_check` calls `sys.exit(1)`.  The resulting
`SystemExit` derives from `BaseException`, so the `except Exception`
clauses in `op_containers` and `operational_run` do not catch it: the
process terminates with a failure status and no further stage starts.
The success of each container invocation is an oracle `ok : Nat → Bool`
indexed by invocation position; the environment bundles built between
invocations (`get_ncf2cbh_opvars`, `get_prms_run_env`, ...) are part of
the stage description and not modelled further. -/

/-- Outcome of the stage sequence: all stages succeeded, or
`sys.exit(1)` fired at the named stage. -/
inductive OpContainersResult
  | completed
  | exited (stage : String)
deriving DecidableEq, Repr

/-- The five container invocations of `op_containers`, in source order:
role label, image, container name.  The fifth invocation reuses the
`prms` image and container name with the restart environment from
`get_prms_restart_env`; its role label here is `prms-restart`. -/
def opStageList : List (String × String × String) :=
  [("gridmetetl", "nhmusgs/gridmetetl:0.30", "gridmetetl"),
   ("ncf2cbh", "nhmusgs/ncf2cbh", "ncf2cbh"),
   ("prms", "nhmusgs/prms:5.2.1", "prms"),
   ("out2ncf", "nhmusgs/out2ncf", "out2ncf"),
   ("prms-restart", "nhmusgs/prms:5.2.1", "prms")]

/-- The role labels of the operational stages, in invocation order. -/
def opStageRoles : List String := opStageList.map (fun s => s.1)

/-- Sequential fail-fast execution from invocation index `i`: returns
the outcome and the stages actually invoked, in order. -/
def runStagesFrom (ok : Nat → Bool) :
    Nat → List (String × String × String) →
      OpContainersResult × List String
  | _, [] => (.completed, [])
  | i, st :: rest =>
    if ok i then
      let r := runStagesFrom ok (i + 1) rest
      (r.1, st.1 :: r.2)
    else (.exited st.1, [st.1])

/-- Embeds `op_containers`. -/
def op_containers (ok : Nat → Bool) : OpContainersResult × List String :=
  runStagesFrom ok 0 opStageList

/-! ### Claim C5: fail-fast stage sequencing -/

/-- C5: the operational stage sequence is the fixed order
gridmetetl, ncf2cbh, prms, out2ncf, prms-restart; if invocation `j`
fails while the earlier ones succeeded, exactly the first `j + 1` stages
are invoked (none after the failure) and the run terminates with the
failure status `exited`; if all succeed, all five run in order. -/
theorem c5_fail_fast (ok : Nat → Bool) :
    opStageRoles
        = ["gridmetetl", "ncf2cbh", "prms", "out2ncf", "prms-restart"] ∧
    (∀ j, j < 5 → (∀ i, i < j → ok i = true) → ok j = false →
      op_containers ok =
        (.exited (opStageRoles.getD j ""), opStageRoles.take (j + 1))) ∧
    ((∀ i, i < 5 → ok i = true) →
      op_containers ok = (.completed, opStageRoles)) := by
  refine ⟨rfl, ?_, ?_⟩
  · intro j hj hpre hfail
    interval_cases j
    · simp [op_containers, opStageList, runStagesFrom, opStageRoles, hfail]
    · have h0 := hpre 0 (by omega)
      simp [op_containers, opStageList, runStagesFrom, opStageRoles, h0,
        hfail]
    · have h0 := hpre 0 (by omega)
      have h1 := hpre 1 (by omega)
      simp [op_containers, opStageList, runStagesFrom, opStageRoles, h0, h1,
        hfail]
    · have h0 := hpre 0 (by omega)
      have h1 := hpre 1 (by omega)
      have h2 := hpre 2 (by omega)
      simp [op_containers, opStageList, runStagesFrom, opStageRoles, h0, h1,
        h2, hfail]
    · have h0 := hpre 0 (by omega)
      have h1 := hpre 1 (by omega)
      have h2 := hpre 2 (by omega)
      have h3 := hpre 3 (by omega)
      simp [op_containers, opStageList, runStagesFrom, opStageRoles, h0, h1,
        h2, h3, hfail]
  · intro hall
    have h0 := hall 0 (by omega)
    have h1 := hall 1 (by omega)
    have h2 := hall 2 (by omega)
    have h3 := hall 3 (by omega)
    have h4 := hall 4 (by omega)
    simp [op_containers, opStageList, runStagesFrom, opStageRoles, h0, h1,
      h2, h3, h4]

/-- C5 witness: the second invocation (ncf2cbh) fails; only gridmetetl
and ncf2cbh are ever invoked and the run exits at ncf2cbh. -/
theorem c5_fail_fast_witness :
    op_containers (fun i => i == 0)
      = (.exited "ncf2cbh", ["gridmetetl", "ncf2cbh"]) := by
  have h := (c5_fail_fast (fun i => i == 0)).2.1 1 (by omega)
    (by decide) (by decide)
  simpa using h

/-! ### Claim C6: missing checkpoint handling -/

/-- ASCII whitespace, as removed by Python's `str.strip()`. -/
def isSpaceChar (c : Char) : Bool :=
  c == ' ' || c == '\t' || c == '\n' || c == '\r' ||
    c == Char.ofNat 11 || c == Char.ofNat 12

/-- Python's `str.strip()`: drop leading and trailing whitespace. -/
def pyStrip (s : String) : String :=
  String.mk (((s.toList.dropWhile isSpaceChar).reverse.dropWhile
    isSpaceChar).reverse)

/-- Embeds `get_latest_restart_date` (`docker_manager.py`), given the decoded
log output of the lookup container.  When the stripped output is empty
the function raises `FileNotFoundError("No .restart files found...")`,
but that raise sits inside the function's own `try` block whose
`except Exception` clause catches it, logs it, and falls through to
`return None` — despite the docstring documenting the raise.  The net
effect embedded here: empty output gives `none`. -/
def get_latest_restart_date (logsOutput : String) : Option String :=
  let restart_date := pyStrip logsOutput
  if restart_date = "" then none else some restart_date

/-- Terminal status of `operational_run` (non-test path). -/
inductive OpRunStatus
  | abortedEnvUpdateError
  | abortedUpstreamNotReady
  | stagesRun (r : OpContainersResult) (invoked : List String)
deriving DecidableEq, Repr

/-- The stages a run actually invoked. -/
def invokedStages : OpRunStatus → List String
  | .stagesRun _ tr => tr
  | _ => []

/-- Embeds `operational_run` (`docker_manager.py`), non-test path: discover the
checkpoint, gate on feed freshness, resolve the window, then run the
stage sequence.  `except Exception` around the gate and the window
resolution turns any raise there — including the `TypeError` from
passing `restart_date = None` into `adjust_date` — into the logged
abort `abortedEnvUpdateError`; unpacking the 3-tuple that
`check_consistency` returns on an empty date list raises a `ValueError`
caught by the same clause; `gm_status == False` aborts with the
"Gridmet not yet updated" message. -/
def operational_run (logsOutput : String) (responses : List FeedResponse)
    (yesterday : Date) (env : EnvMap) (ok : Nat → Bool) : OpRunStatus :=
  let restart_date := get_latest_restart_date logsOutput
  match gridmet_updated responses yesterday with
  | none => .abortedEnvUpdateError
  | some (sl, dl) =>
    match check_consistency sl dl with
    | .triple _ _ _ => .abortedEnvUpdateError
    | .pair gm_status end_date_str =>
      if gm_status = false then .abortedUpstreamNotReady
      else
        match restart_date with
        | none => .abortedEnvUpdateError
        | some rd =>
          match env_update_dates rd end_date_str env with
          | none => .abortedEnvUpdateError
          | some _ =>
            let r := op_containers ok
            .stagesRun r.1 r.2

/-- C6 (code bug): with an empty restart store the lookup's trimmed
output is empty and `get_latest_restart_date` returns `None` — its own
`except Exception` swallows the `FileNotFoundError` its docstring
promises.  `operational_run` then proceeds to the freshness gate and
aborts either as upstream-not-ready or with a generic env-update error
(the `TypeError` from the `None` checkpoint), never with a
missing-checkpoint failure; no pipeline stage is ever invoked. -/
theorem c6_missing_checkpoint_swallowed :
    get_latest_restart_date "" = none ∧
    get_latest_restart_date " \n  " = none ∧
    ∀ (responses : List FeedResponse) (yesterday : Date) (env : EnvMap)
      (ok : Nat → Bool),
      (operational_run "" responses yesterday env ok
          = .abortedEnvUpdateError ∨
        operational_run "" responses yesterday env ok
          = .abortedUpstreamNotReady) ∧
      invokedStages (operational_run "" responses yesterday env ok) = [] := by
  have hnone : get_latest_restart_date "" = none := by decide
  refine ⟨hnone, by decide, ?_⟩
  intro responses yesterday env ok
  have key : operational_run "" responses yesterday env ok
        = .abortedEnvUpdateError ∨
      operational_run "" responses yesterday env ok
        = .abortedUpstreamNotReady := by
    unfold operational_run
    cases hg : gridmet_updated responses yesterday with
    | none => simp
    | some p =>
      obtain ⟨sl, dl⟩ := p
      cases hc : check_consistency sl dl with
      | triple a b c => simp [hc]
      | pair st ed =>
        by_cases hst : st = false
        · simp [hc, hst]
        · simp [hc, hst, hnone]
  refine ⟨key, ?_⟩
  rcases key with h | h <;> rw [h] <;> rfl
